import Mathlib

/-!
Verification of the readability and difficulty-calibration engine
(`readability.py`).  Text is modelled as `List Char`; Python `float`
arithmetic is modelled exactly over `ℚ`; Python `int` as `ℤ`/`ℕ`.
The regex character class `\w` and the string methods `lower`, `strip`
are modelled on their ASCII fragment, which covers every input the
development evaluates.
-/

namespace Readability

/-- Characters matched by the regex class `\w` (ASCII fragment):
letters, digits and the underscore. -/
def isWordChar (c : Char) : Bool := c.isAlphanum || c = '_'

/-- The vowel set `"aeiouy"` of `count_syllables`. -/
def isVowel (c : Char) : Bool :=
  c = 'a' || c = 'e' || c = 'i' || c = 'o' || c = 'u' || c = 'y'

/-- The sentence-ending punctuation class `[.!?]` of `count_sentences`. -/
def isSentenceDelim (c : Char) : Bool := c = '.' || c = '!' || c = '?'

/-- Helper for `re.findall(r'\b\w+\b', text)`: scans the text keeping the
current (reversed) partial token in `acc`, emitting a token at the end of
each maximal run of word characters. -/
def wordsGo : List Char → List Char → List (List Char)
  | [], acc => if acc.isEmpty then [] else [acc.reverse]
  | c :: cs, acc =>
    if isWordChar c then wordsGo cs (c :: acc)
    else if acc.isEmpty then wordsGo cs []
    else acc.reverse :: wordsGo cs []

/-- `re.findall(r'\b\w+\b', text)`: the list of word tokens, i.e. the
maximal runs of word characters. -/
def wordsOf (t : List Char) : List (List Char) := wordsGo t []

/-- `count_words(text) = len(re.findall(r'\b\w+\b', text))`. -/
def count_words (t : List Char) : ℕ := (wordsOf t).length

/-- The `for char in word` loop of `count_syllables`: adds one at each
vowel whose predecessor was not a vowel; the flag is
`previous_was_vowel`. -/
def syllableLoop : List Char → Bool → ℤ
  | [], _ => 0
  | c :: cs, prev =>
    (if isVowel c && !prev then 1 else 0) + syllableLoop cs (isVowel c)

/-- `count_syllables(word)`: lowercase, count vowel-run starts, subtract
one for a trailing `'e'`, and replace a zero count by one. -/
def count_syllables (word : List Char) : ℤ :=
  let w := word.map Char.toLower
  let n := syllableLoop w false
  let n := if w.getLast? = some 'e' then n - 1 else n
  if n = 0 then 1 else n

/-- Helper for `re.split(r'[.!?]+', text)`: the Boolean flag records
whether the previous character was a sentence delimiter, so that a run
of delimiters produces a single split point. -/
def splitOnDelims : List Char → List Char → Bool → List (List Char)
  | [], acc, _ => [acc.reverse]
  | c :: cs, acc, prevDelim =>
    if isSentenceDelim c then
      if prevDelim then splitOnDelims cs [] true
      else acc.reverse :: splitOnDelims cs [] true
    else splitOnDelims cs (c :: acc) false

/-- `count_sentences(text)`: split on runs of `.!?`, keep the segments
that are nonempty after `strip()` (i.e. contain a non-whitespace
character), and floor the count at 1. -/
def count_sentences (t : List Char) : ℕ :=
  let sentences := (splitOnDelims t [] false).filter
    (fun s => s.any (fun c => !c.isWhitespace))
  max sentences.length 1

/-- `sum(count_syllables(word) for word in words)` over the word tokens
of the text. -/
def syllableTotal (t : List Char) : ℤ :=
  ((wordsOf t).map count_syllables).sum

/-- `flesch_reading_ease(text)`: `206.835 - 1.015*avg_words_per_sentence
- 84.6*avg_syllables_per_word`, clamped to `[0, 100]`; `0` when the text
has no words (or no sentences, which cannot happen). -/
def flesch_reading_ease (t : List Char) : ℚ :=
  let words := wordsOf t
  let word_count := words.length
  let sentence_count := count_sentences t
  let syllable_count := (words.map count_syllables).sum
  if word_count = 0 ∨ sentence_count = 0 then 0
  else
    let avg_syllables_per_word : ℚ := (syllable_count : ℚ) / (word_count : ℚ)
    let avg_words_per_sentence : ℚ := (word_count : ℚ) / (sentence_count : ℚ)
    max 0 (min 100 (206.835 - 1.015 * avg_words_per_sentence - 84.6 * avg_syllables_per_word))

/-- `flesch_kincaid_grade(text)`: `0.39*avg_words_per_sentence +
11.8*avg_syllables_per_word - 15.59`, clamped below at `0`; `0` when the
text has no words. -/
def flesch_kincaid_grade (t : List Char) : ℚ :=
  let words := wordsOf t
  let word_count := words.length
  let sentence_count := count_sentences t
  let syllable_count := (words.map count_syllables).sum
  if word_count = 0 ∨ sentence_count = 0 then 0
  else
    let avg_syllables_per_word : ℚ := (syllable_count : ℚ) / (word_count : ℚ)
    let avg_words_per_sentence : ℚ := (word_count : ℚ) / (sentence_count : ℚ)
    max 0 (0.39 * avg_words_per_sentence + 11.8 * avg_syllables_per_word - 15.59)

/-- Python `round` on a rational: round half to even (banker's
rounding). -/
def pyRound (x : ℚ) : ℤ :=
  let f := Int.floor x
  if x - f < 1 / 2 then f
  else if 1 / 2 < x - f then f + 1
  else if f % 2 = 0 then f else f + 1

/-- Python `round(x, dp)`. -/
def pyRoundTo (dp : ℕ) (x : ℚ) : ℚ :=
  (pyRound (x * 10 ^ dp) : ℚ) / 10 ^ dp

/-- `get_readability_description(flesch_ease)`. -/
def get_readability_description (flesch_ease : ℚ) : String :=
  if flesch_ease ≥ 90 then "Very Easy - 5th grade level"
  else if flesch_ease ≥ 80 then "Easy - 6th grade level"
  else if flesch_ease ≥ 70 then "Fairly Easy - 7th grade level"
  else if flesch_ease ≥ 60 then "Standard - 8th-9th grade level"
  else if flesch_ease ≥ 50 then "Fairly Difficult - 10th-12th grade level"
  else if flesch_ease ≥ 30 then "Difficult - College level"
  else "Very Difficult - Graduate level"

/-- The dictionary returned by `analyze_readability`, field for field. -/
structure ReadabilityReport where
  word_count : ℕ
  sentence_count : ℕ
  syllable_count : ℤ
  avg_words_per_sentence : ℚ
  avg_syllables_per_word : ℚ
  flesch_reading_ease : ℚ
  flesch_kincaid_grade : ℚ
  difficulty_level : String
  grade_band : String
  estimated_minutes : ℤ
  readability_description : String
  deriving Repr, DecidableEq

/-- `analyze_readability(text)`: metrics, scores rounded for display,
difficulty level and grade band classified from the unrounded
Flesch-Kincaid grade, and the reading-time estimate. -/
def analyze_readability (t : List Char) : ReadabilityReport :=
  let word_count := count_words t
  let sentence_count := count_sentences t
  let syllable_count := syllableTotal t
  let flesch_ease := flesch_reading_ease t
  let fk_grade := flesch_kincaid_grade t
  let estimated_minutes := max 1 (pyRound ((word_count : ℚ) / 150))
  let difficulty :=
    if fk_grade ≤ 5 then "beginner"
    else if fk_grade ≤ 8 then "intermediate"
    else "advanced"
  let grade_band :=
    if fk_grade ≤ 5 then "elementary"
    else if fk_grade ≤ 8 then "middle"
    else if fk_grade ≤ 12 then "high"
    else "adult"
  ⟨word_count, sentence_count, syllable_count,
    if sentence_count > 0 then pyRoundTo 1 ((word_count : ℚ) / (sentence_count : ℚ)) else 0,
    if word_count > 0 then pyRoundTo 2 ((syllable_count : ℚ) / (word_count : ℚ)) else 0,
    pyRoundTo 1 flesch_ease,
    pyRoundTo 1 fk_grade,
    difficulty, grade_band, estimated_minutes,
    get_readability_description flesch_ease⟩

/-- `get_difficulty_for_user(user_level, target_challenge)`: base grade
range from the tier (default the intermediate range), then the challenge
adjustment; in the source `target_challenge` defaults to
`"appropriate"`. -/
def get_difficulty_for_user (user_level : String) (target_challenge : String) : ℚ × ℚ :=
  let base : ℚ × ℚ :=
    if user_level = "beginner" then (2, 5)
    else if user_level = "intermediate" then (6, 8)
    else if user_level = "advanced" then (9, 12)
    else (6, 8)
  if target_challenge = "easier" then (max 1 (base.1 - 2), max 3 (base.2 - 2))
  else if target_challenge = "challenging" then (base.1 + 2, base.2 + 2)
  else base

/-- Counts the maximal runs of characters satisfying `p`, carrying the
flag "previous character satisfied `p`". -/
def runCountAux (p : Char → Bool) : List Char → Bool → ℕ
  | [], _ => 0
  | c :: cs, prev =>
    (if p c && !prev then 1 else 0) + runCountAux p cs (p c)

/-- Number of maximal runs of characters satisfying `p` in the text. -/
def runCount (p : Char → Bool) (t : List Char) : ℕ := runCountAux p t false

/-- Modelled from the claim's words: the number of maximal runs of
alphanumeric characters in the text. -/
def alnumRunCount (t : List Char) : ℕ := runCount Char.isAlphanum t

/-- Modelled from the spec's words: lowercase the word, count one
syllable at the start of each maximal vowel run, decrement for a
trailing `'e'`, floor at 1. -/
def count_syllables_spec (word : List Char) : ℤ :=
  let w := word.map Char.toLower
  max 1 ((runCount isVowel w : ℤ) - (if w.getLast? = some 'e' then 1 else 0))

/-! ### Witness texts -/

/-- Concatenation of `n` copies of a character list. -/
def repList (n : ℕ) (l : List Char) : List Char := (List.replicate n l).flatten

/-- A text with 59 one-word sentences and 101 syllables, whose
Flesch-Kincaid grade is exactly 5. -/
def text5 : List Char := repList 42 "aha. ".data ++ repList 17 "a. ".data

/-- A ten-word sentence with twenty syllables. -/
def sentA : List Char := "aha aha aha aha aha aha aha aha aha aha. ".data

/-- A ten-word sentence with fifteen syllables. -/
def sentB : List Char := "aha aha aha aha aha a a a a a. ".data

/-- A ten-word sentence with ten syllables. -/
def sentC : List Char := "a a a a a a a a a a. ".data

/-- A ten-word sentence with seventeen syllables. -/
def sentD : List Char := "aha aha aha aha aha aha aha a a a. ".data

/-- A text with 59 ten-word sentences and 985 syllables, whose
Flesch-Kincaid grade is exactly 8.01. -/
def text801 : List Char := repList 39 sentA ++ sentB ++ repList 19 sentC

/-- A text with 7 ten-word sentences and 117 syllables, whose
Flesch-Kincaid grade is 5623/700 ≈ 8.0329, strictly between 8 and 8.05. -/
def text8032 : List Char := repList 4 sentA ++ sentD ++ repList 2 sentC

/-- A one-word one-sentence text. -/
def textGo : List Char := "go.".data

/-- A whitespace-only text. -/
def textWs : List Char := "  ".data

/-! ### Helper lemmas -/

theorem count_sentences_pos (t : List Char) : 1 ≤ count_sentences t :=
  Nat.le_max_right _ _

/-- The syllable loop of the source is the vowel-run counter. -/
theorem syllableLoop_eq_runCountAux (w : List Char) :
    ∀ b, syllableLoop w b = (runCountAux isVowel w b : ℤ) := by
  induction w with
  | nil => intro b; simp [syllableLoop, runCountAux]
  | cons c cs ih =>
    intro b
    simp only [syllableLoop, runCountAux, ih]
    split <;> simp

/-- A list containing a character satisfying `p` has at least one
maximal `p`-run when the scan starts outside a run. -/
theorem runCountAux_pos (p : Char → Bool) (w : List Char)
    (h : ∃ c ∈ w, p c = true) : 1 ≤ runCountAux p w false := by
  induction w with
  | nil => simp at h
  | cons c cs ih =>
    cases hc : p c with
    | true => simp [runCountAux, hc]
    | false =>
      rcases h with ⟨d, hd, hpd⟩
      rcases List.mem_cons.mp hd with rfl | hd
      · rw [hc] at hpd; exact absurd hpd (by simp)
      · simpa [runCountAux, hc] using ih ⟨d, hd, hpd⟩

theorem mem_of_getLast?_eq_some {l : List Char} {a : Char}
    (h : l.getLast? = some a) : a ∈ l := by
  induction l with
  | nil => simp at h
  | cons c cs ih =>
    cases cs with
    | nil => simp_all [List.getLast?]
    | cons d ds =>
      rw [List.getLast?_cons_cons] at h
      exact List.mem_cons_of_mem _ (ih h)

theorem ite_eq_one_of_nonneg (x : ℤ) (h : 0 ≤ x) :
    (if x = 0 then 1 else x) = max 1 x := by
  rcases eq_or_lt_of_le h with h0 | h0
  · simp [← h0]
  · rw [if_neg (by omega), max_eq_right (by omega)]

/-- The source's syllable counter agrees with the spec's reference
computation on every word. -/
theorem count_syllables_eq_spec (w : List Char) :
    count_syllables w = count_syllables_spec w := by
  rw [count_syllables, count_syllables_spec]
  rw [syllableLoop_eq_runCountAux]
  set lw := w.map Char.toLower with hlw
  by_cases he : lw.getLast? = some 'e'
  · rw [if_pos he, if_pos he]
    have hrun : (1 : ℤ) ≤ (runCountAux isVowel lw false : ℤ) := by
      exact_mod_cast runCountAux_pos isVowel lw ⟨'e', mem_of_getLast?_eq_some he, by decide⟩
    rw [ite_eq_one_of_nonneg _ (by omega)]
    simp [runCount]
  · rw [if_neg he, if_neg he]
    rw [ite_eq_one_of_nonneg _ (Int.ofNat_nonneg _)]
    simp [runCount]

theorem one_le_count_syllables (w : List Char) : 1 ≤ count_syllables w := by
  rw [count_syllables_eq_spec, count_syllables_spec]
  exact le_max_left _ _

/-- Each word contributes at least one syllable to a summed list. -/
theorem length_le_sum_count_syllables (L : List (List Char)) :
    (L.length : ℤ) ≤ (L.map count_syllables).sum := by
  induction L with
  | nil => simp
  | cons w ws ih =>
    simp only [List.length_cons, List.map_cons, List.sum_cons]
    push_cast
    have := one_le_count_syllables w
    omega

/-- Length of the token list produced by the word scanner, in terms of
the run counter. -/
theorem wordsGo_length (t : List Char) : ∀ acc : List Char,
    (wordsGo t acc).length =
      (if acc.isEmpty then 0 else 1) + runCountAux isWordChar t !acc.isEmpty := by
  induction t with
  | nil =>
    intro acc
    cases acc <;> simp [wordsGo, runCountAux]
  | cons c cs ih =>
    intro acc
    cases hc : isWordChar c with
    | true =>
      cases acc <;> simp [wordsGo, runCountAux, hc, ih]
    | false =>
      cases acc <;> simp [wordsGo, runCountAux, hc, ih] <;> omega

/-- `count_words` counts the maximal runs of word characters. -/
theorem count_words_eq_runCount (t : List Char) :
    count_words t = runCount isWordChar t := by
  have := wordsGo_length t []
  simpa [count_words, wordsOf, runCount] using this

theorem not_isWordChar_of_isWhitespace {c : Char} (h : c.isWhitespace = true) :
    isWordChar c = false := by
  simp only [Char.isWhitespace, Bool.or_eq_true, decide_eq_true_eq] at h
  rcases h with ((h | h) | h) | h <;> subst h <;> decide

theorem not_isSentenceDelim_of_isWhitespace {c : Char} (h : c.isWhitespace = true) :
    isSentenceDelim c = false := by
  simp only [Char.isWhitespace, Bool.or_eq_true, decide_eq_true_eq] at h
  rcases h with ((h | h) | h) | h <;> subst h <;> decide

/-- A text without word characters yields no word tokens. -/
theorem wordsGo_eq_nil (t : List Char) (h : ∀ c ∈ t, isWordChar c = false) :
    wordsGo t [] = [] := by
  induction t with
  | nil => simp [wordsGo]
  | cons c cs ih =>
    have hc := h c (List.mem_cons_self c cs)
    simp only [wordsGo, hc]
    simpa using ih fun d hd => h d (List.mem_cons_of_mem _ hd)

/-- Splitting a text that contains no sentence delimiter yields one
segment. -/
theorem splitOnDelims_no_delims (t : List Char)
    (hnd : ∀ c ∈ t, isSentenceDelim c = false) :
    ∀ acc b, splitOnDelims t acc b = [acc.reverse ++ t] := by
  induction t with
  | nil => intro acc b; simp [splitOnDelims]
  | cons c cs ih =>
    intro acc b
    have hc : isSentenceDelim c = false := hnd c (List.mem_cons_self c cs)
    simp only [splitOnDelims, hc]
    rw [ih (fun d hd => hnd d (List.mem_cons_of_mem _ hd)) (c :: acc) false]
    simp

/-- A whitespace-only text reports exactly one sentence. -/
theorem count_sentences_all_ws (t : List Char)
    (h : ∀ c ∈ t, c.isWhitespace = true) : count_sentences t = 1 := by
  have hnd : ∀ c ∈ t, isSentenceDelim c = false :=
    fun c hc => not_isSentenceDelim_of_isWhitespace (h c hc)
  rw [count_sentences]
  rw [splitOnDelims_no_delims t hnd [] false]
  have hany : t.any (fun c => !c.isWhitespace) = false := by
    simp only [List.any_eq_false, Bool.not_eq_true]
    intro c hc
    simp [h c hc]
  simp [List.filter_cons, hany]

/-- A whitespace-only text has no words. -/
theorem count_words_all_ws (t : List Char)
    (h : ∀ c ∈ t, c.isWhitespace = true) : count_words t = 0 := by
  rw [count_words, wordsOf, wordsGo_eq_nil t
    (fun c hc => not_isWordChar_of_isWhitespace (h c hc))]
  rfl

/-- With at least one word the reading-ease score is the clamped Flesch
formula. -/
theorem flesch_reading_ease_eq (t : List Char) (h : 0 < count_words t) :
    flesch_reading_ease t =
      max 0 (min 100 (206.835
        - 1.015 * ((count_words t : ℚ) / (count_sentences t : ℚ))
        - 84.6 * ((syllableTotal t : ℚ) / (count_words t : ℚ)))) := by
  have hs := count_sentences_pos t
  have hw : (wordsOf t).length ≠ 0 := by simpa [count_words] using h.ne'
  simp only [flesch_reading_ease]
  rw [if_neg (by push_neg; exact ⟨hw, by omega⟩)]
  rfl

/-- With at least one word the grade is the clamped Flesch-Kincaid
formula. -/
theorem flesch_kincaid_grade_eq (t : List Char) (h : 0 < count_words t) :
    flesch_kincaid_grade t =
      max 0 (0.39 * ((count_words t : ℚ) / (count_sentences t : ℚ))
        + 11.8 * ((syllableTotal t : ℚ) / (count_words t : ℚ)) - 15.59) := by
  have hs := count_sentences_pos t
  have hw : (wordsOf t).length ≠ 0 := by simpa [count_words] using h.ne'
  simp only [flesch_kincaid_grade]
  rw [if_neg (by push_neg; exact ⟨hw, by omega⟩)]
  rfl

theorem flesch_reading_ease_bounds (t : List Char) :
    0 ≤ flesch_reading_ease t ∧ flesch_reading_ease t ≤ 100 := by
  simp only [flesch_reading_ease]
  split
  · norm_num
  · exact ⟨le_max_left _ _, max_le (by norm_num) (min_le_left _ _)⟩

theorem flesch_kincaid_grade_nonneg (t : List Char) :
    0 ≤ flesch_kincaid_grade t := by
  simp only [flesch_kincaid_grade]
  split
  · norm_num
  · exact le_max_left _ _

/-- The difficulty level reported by `analyze_readability`, as a
function of the unrounded grade. -/
theorem analyze_difficulty_eq (t : List Char) :
    (analyze_readability t).difficulty_level =
      (if flesch_kincaid_grade t ≤ 5 then "beginner"
       else if flesch_kincaid_grade t ≤ 8 then "intermediate"
       else "advanced") := rfl

/-- The grade band reported by `analyze_readability`, as a function of
the unrounded grade. -/
theorem analyze_band_eq (t : List Char) :
    (analyze_readability t).grade_band =
      (if flesch_kincaid_grade t ≤ 5 then "elementary"
       else if flesch_kincaid_grade t ≤ 8 then "middle"
       else if flesch_kincaid_grade t ≤ 12 then "high"
       else "adult") := rfl

/-- The reported grade field is the unrounded grade rounded to one
decimal place. -/
theorem analyze_fk_eq (t : List Char) :
    (analyze_readability t).flesch_kincaid_grade =
      pyRoundTo 1 (flesch_kincaid_grade t) := rfl

/-- Python `round` for a value whose fractional part is below one
half. -/
theorem pyRound_eq_of_lt_half (x : ℚ) (n : ℤ) (h1 : (n : ℚ) ≤ x)
    (h2 : x < (n : ℚ) + 1 / 2) : pyRound x = n := by
  have hf : Int.floor x = n := by
    rw [Int.floor_eq_iff]
    constructor
    · exact h1
    · linarith
  rw [pyRound, hf, if_pos (by linarith)]

set_option maxRecDepth 100000

theorem fk_nil : flesch_kincaid_grade [] = 0 := by
  simp [flesch_kincaid_grade, wordsOf, wordsGo]

theorem fre_nil : flesch_reading_ease [] = 0 := by
  simp [flesch_reading_ease, wordsOf, wordsGo]

/-- `text5` has 59 words in 59 one-word sentences and 101 syllables, so
its grade is `0.39·1 + 11.8·(101/59) − 15.59 = 5` exactly. -/
theorem fk_text5 : flesch_kincaid_grade text5 = 5 := by
  rw [flesch_kincaid_grade]
  rw [show (wordsOf text5).length = 59 from by decide,
    show count_sentences text5 = 59 from by decide,
    show (List.map count_syllables (wordsOf text5)).sum = 101 from by decide]
  norm_num [max_def]

/-- `text801` has 590 words in 59 ten-word sentences and 985 syllables,
so its grade is `0.39·10 + 11.8·(985/590) − 15.59 = 8.01` exactly. -/
theorem fk_text801 : flesch_kincaid_grade text801 = 801 / 100 := by
  rw [flesch_kincaid_grade]
  rw [show (wordsOf text801).length = 590 from by decide,
    show count_sentences text801 = 59 from by decide,
    show (List.map count_syllables (wordsOf text801)).sum = 985 from by decide]
  norm_num [max_def]

/-- `text8032` has 70 words in 7 ten-word sentences and 117 syllables,
so its grade is `0.39·10 + 11.8·(117/70) − 15.59 = 5623/700`. -/
theorem fk_text8032 : flesch_kincaid_grade text8032 = 5623 / 700 := by
  rw [flesch_kincaid_grade]
  rw [show (wordsOf text8032).length = 70 from by decide,
    show count_sentences text8032 = 7 from by decide,
    show (List.map count_syllables (wordsOf text8032)).sum = 117 from by decide]
  norm_num [max_def]

/-! ### Claims -/

/-- C1: for every text, the difficulty level and grade band returned by
`analyze_readability` are determined by the unrounded Flesch-Kincaid
grade `g`: `g ≤ 5` gives beginner/elementary, `5 < g ≤ 8` gives
intermediate/middle, `8 < g ≤ 12` gives advanced/high, and `12 < g`
gives advanced/adult; in particular a grade of exactly 8 is
intermediate/middle and any grade strictly above 8 is advanced. -/
theorem claim1_classification_by_unrounded_grade (t : List Char) :
    (flesch_kincaid_grade t ≤ 5 →
      (analyze_readability t).difficulty_level = "beginner" ∧
      (analyze_readability t).grade_band = "elementary") ∧
    (5 < flesch_kincaid_grade t → flesch_kincaid_grade t ≤ 8 →
      (analyze_readability t).difficulty_level = "intermediate" ∧
      (analyze_readability t).grade_band = "middle") ∧
    (8 < flesch_kincaid_grade t → flesch_kincaid_grade t ≤ 12 →
      (analyze_readability t).difficulty_level = "advanced" ∧
      (analyze_readability t).grade_band = "high") ∧
    (12 < flesch_kincaid_grade t →
      (analyze_readability t).difficulty_level = "advanced" ∧
      (analyze_readability t).grade_band = "adult") := by
  rw [analyze_difficulty_eq, analyze_band_eq]
  refine ⟨fun h => ?_, fun h1 h2 => ?_, fun h1 h2 => ?_, fun h => ?_⟩ <;>
    split_ifs <;> first | exact ⟨rfl, rfl⟩ | (exfalso; linarith)

/-- Witness for C1: the empty text has grade `0 ≤ 5` and is classified
beginner/elementary. -/
theorem claim1_witness :
    (analyze_readability ([] : List Char)).difficulty_level = "beginner" ∧
    (analyze_readability ([] : List Char)).grade_band = "elementary" :=
  (claim1_classification_by_unrounded_grade []).1 (by rw [fk_nil]; norm_num)

/-- C2: for every text with at least one word, `flesch_reading_ease` is
the Flesch formula clamped to `[0, 100]` and `flesch_kincaid_grade` is
the Flesch-Kincaid formula clamped below at `0`; consequently the ease
always lies in `[0, 100]` and the grade is always nonnegative. -/
theorem claim2_formulas_and_bounds (t : List Char) :
    (0 ≤ flesch_reading_ease t ∧ flesch_reading_ease t ≤ 100 ∧
      0 ≤ flesch_kincaid_grade t) ∧
    (0 < count_words t →
      flesch_reading_ease t =
        max 0 (min 100 (206.835
          - 1.015 * ((count_words t : ℚ) / (count_sentences t : ℚ))
          - 84.6 * ((syllableTotal t : ℚ) / (count_words t : ℚ)))) ∧
      flesch_kincaid_grade t =
        max 0 (0.39 * ((count_words t : ℚ) / (count_sentences t : ℚ))
          + 11.8 * ((syllableTotal t : ℚ) / (count_words t : ℚ)) - 15.59)) :=
  ⟨⟨(flesch_reading_ease_bounds t).1, (flesch_reading_ease_bounds t).2,
      flesch_kincaid_grade_nonneg t⟩,
    fun h => ⟨flesch_reading_ease_eq t h, flesch_kincaid_grade_eq t h⟩⟩

/-- Witness for C2: the one-word text `"go."` has a positive word count
and its scores equal the clamped formulas. -/
theorem claim2_witness :
    flesch_reading_ease textGo =
      max 0 (min 100 (206.835
        - 1.015 * ((count_words textGo : ℚ) / (count_sentences textGo : ℚ))
        - 84.6 * ((syllableTotal textGo : ℚ) / (count_words textGo : ℚ)))) ∧
    flesch_kincaid_grade textGo =
      max 0 (0.39 * ((count_words textGo : ℚ) / (count_sentences textGo : ℚ))
        + 11.8 * ((syllableTotal textGo : ℚ) / (count_words textGo : ℚ)) - 15.59) :=
  (claim2_formulas_and_bounds textGo).2 (by decide)

/-- C3: `get_difficulty_for_user` maps beginner to (2,5), intermediate
to (6,8), advanced to (9,12); `appropriate` leaves the base range
unchanged, `easier` subtracts 2 from both bounds flooring the minimum at
1 and the maximum at 3, `challenging` adds 2 to both bounds with no
ceiling; in particular beginner/appropriate gives (2,5),
beginner/easier gives (1,3) and advanced/challenging gives (11,14). -/
theorem claim3_calibrator_ranges :
    get_difficulty_for_user "beginner" "appropriate" = (2, 5) ∧
    get_difficulty_for_user "intermediate" "appropriate" = (6, 8) ∧
    get_difficulty_for_user "advanced" "appropriate" = (9, 12) ∧
    get_difficulty_for_user "beginner" "easier" = (max 1 (2 - 2), max 3 (5 - 2)) ∧
    get_difficulty_for_user "intermediate" "easier" = (max 1 (6 - 2), max 3 (8 - 2)) ∧
    get_difficulty_for_user "advanced" "easier" = (max 1 (9 - 2), max 3 (12 - 2)) ∧
    get_difficulty_for_user "beginner" "challenging" = (2 + 2, 5 + 2) ∧
    get_difficulty_for_user "intermediate" "challenging" = (6 + 2, 8 + 2) ∧
    get_difficulty_for_user "advanced" "challenging" = (9 + 2, 12 + 2) ∧
    get_difficulty_for_user "beginner" "easier" = (1, 3) ∧
    get_difficulty_for_user "advanced" "challenging" = (11, 14) := by
  norm_num [get_difficulty_for_user, max_def,
    eq_false (show ¬(("appropriate" : String) = "easier") from by decide),
    eq_false (show ¬(("appropriate" : String) = "challenging") from by decide),
    eq_false (show ¬(("intermediate" : String) = "beginner") from by decide),
    eq_false (show ¬(("advanced" : String) = "beginner") from by decide),
    eq_false (show ¬(("advanced" : String) = "intermediate") from by decide),
    eq_false (show ¬(("challenging" : String) = "easier") from by decide)]

/-- C4: on every word the source's `count_syllables` agrees with the
reference computation (count the starts of maximal vowel runs of the
lowercased word, decrement for a trailing `'e'`, floor at 1), and the
result is always at least 1. -/
theorem claim4_syllable_reference (w : List Char) :
    count_syllables w = count_syllables_spec w ∧ 1 ≤ count_syllables w :=
  ⟨count_syllables_eq_spec w, one_le_count_syllables w⟩

/-- C5: every text has at least one sentence, and a text with at least
one word has at least as many syllables as words. -/
theorem claim5_floors (t : List Char) :
    1 ≤ count_sentences t ∧
    (0 < count_words t → (count_words t : ℤ) ≤ syllableTotal t) := by
  refine ⟨count_sentences_pos t, fun _ => ?_⟩
  simpa [count_words, syllableTotal] using
    length_le_sum_count_syllables (wordsOf t)

/-- Witness for C5: the text `"go."` has one word and one syllable. -/
theorem claim5_witness :
    1 ≤ count_sentences textGo ∧ (count_words textGo : ℤ) ≤ syllableTotal textGo :=
  ⟨(claim5_floors textGo).1, (claim5_floors textGo).2 (by decide)⟩

/-- C6: the empty text yields word count 0, sentence count 1, syllable
count 0 and both scores 0; every text has sentence count at least 1;
and every whitespace-only text behaves like the empty text, so no ratio
in `analyze_readability` ever divides by zero. -/
theorem claim6_empty_safety :
    count_words [] = 0 ∧ count_sentences [] = 1 ∧ syllableTotal [] = 0 ∧
    flesch_reading_ease [] = 0 ∧ flesch_kincaid_grade [] = 0 ∧
    (∀ t : List Char, 1 ≤ count_sentences t) ∧
    (∀ t : List Char, (∀ c ∈ t, c.isWhitespace = true) →
      count_words t = 0 ∧ count_sentences t = 1 ∧ syllableTotal t = 0 ∧
      flesch_reading_ease t = 0 ∧ flesch_kincaid_grade t = 0) := by
  refine ⟨by decide, by decide, by decide, fre_nil, fk_nil, count_sentences_pos, ?_⟩
  intro t h
  have hnil : wordsOf t = [] :=
    wordsGo_eq_nil t fun c hc => not_isWordChar_of_isWhitespace (h c hc)
  have hw : count_words t = 0 := by simp [count_words, hnil]
  refine ⟨hw, count_sentences_all_ws t h, by simp [syllableTotal, hnil], ?_, ?_⟩
  · simp [flesch_reading_ease, hnil]
  · simp [flesch_kincaid_grade, hnil]

/-- Witness for C6: the two-space text is whitespace-only and behaves
like the empty text. -/
theorem claim6_witness :
    count_words textWs = 0 ∧ count_sentences textWs = 1 ∧ syllableTotal textWs = 0 ∧
    flesch_reading_ease textWs = 0 ∧ flesch_kincaid_grade textWs = 0 :=
  claim6_empty_safety.2.2.2.2.2.2 textWs (by decide)

/-- C7: `get_difficulty_for_user` fails soft: an unrecognized user
level behaves like `"intermediate"` (so `"nonsense_tier"` with
`"appropriate"` gives (6,8)), and an unrecognized challenge adjustment
behaves like `"appropriate"`. -/
theorem claim7_fail_soft (user_level target_challenge : String) :
    (user_level ≠ "beginner" → user_level ≠ "intermediate" →
      user_level ≠ "advanced" →
      get_difficulty_for_user user_level target_challenge =
        get_difficulty_for_user "intermediate" target_challenge) ∧
    (target_challenge ≠ "easier" → target_challenge ≠ "challenging" →
      get_difficulty_for_user user_level target_challenge =
        get_difficulty_for_user user_level "appropriate") ∧
    get_difficulty_for_user "nonsense_tier" "appropriate" = (6, 8) := by
  refine ⟨fun h1 h2 h3 => ?_, fun h1 h2 => ?_, by decide⟩
  · simp [get_difficulty_for_user, h1, h2, h3]
  · simp [get_difficulty_for_user, h1, h2]

/-- Witness for C7: concrete unrecognized tier and adjustment
strings. -/
theorem claim7_witness :
    get_difficulty_for_user "nonsense_tier" "appropriate" =
      get_difficulty_for_user "intermediate" "appropriate" ∧
    get_difficulty_for_user "intermediate" "harder" =
      get_difficulty_for_user "intermediate" "appropriate" :=
  ⟨(claim7_fail_soft "nonsense_tier" "appropriate").1
      (by decide) (by decide) (by decide),
    (claim7_fail_soft "intermediate" "harder").2.1 (by decide) (by decide)⟩

/-- C8, counterexample: the claim says `count_words` counts maximal runs
of alphanumeric characters and that a character that is neither
alphanumeric nor whitespace never joins two runs; but on `"a_b"` the
regex `\w+` matches the underscore, so `count_words` returns 1 while
the text has 2 alphanumeric runs. -/
theorem claim8_counterexample :
    count_words "a_b".data = 1 ∧ alnumRunCount "a_b".data = 2 ∧
    count_words "a_b".data ≠ alnumRunCount "a_b".data :=
  ⟨by decide, by decide, by decide⟩

/-- C8, amended: for every text `count_words` equals the number of
maximal runs of word characters, where a word character is an
alphanumeric character or the underscore; the underscore, though
neither alphanumeric nor whitespace, joins adjacent runs. -/
theorem claim8_amended_word_runs (t : List Char) :
    count_words t = runCount isWordChar t :=
  count_words_eq_runCount t

/-- C9, counterexample: the claim says a text with grade exactly 8.01
is classified intermediate/middle, but `text801` has grade exactly 8.01
and `analyze_readability` classifies it advanced/high, because
`8.01 ≤ 8` is false. -/
theorem claim9_counterexample :
    flesch_kincaid_grade text801 = 801 / 100 ∧
    (analyze_readability text801).difficulty_level = "advanced" ∧
    (analyze_readability text801).grade_band = "high" ∧
    ¬((analyze_readability text801).difficulty_level = "intermediate" ∧
      (analyze_readability text801).grade_band = "middle") := by
  have hd : (analyze_readability text801).difficulty_level = "advanced" := by
    rw [analyze_difficulty_eq, fk_text801]; norm_num
  have hb : (analyze_readability text801).grade_band = "high" := by
    rw [analyze_band_eq, fk_text801]; norm_num
  refine ⟨fk_text801, hd, hb, fun hcontra => ?_⟩
  rw [hd] at hcontra
  exact absurd hcontra.1 (by decide)

/-- C9, amended: a text whose grade is exactly 5.0 is classified
beginner/elementary, and a text whose grade is exactly 8.01 is
classified advanced/high (not intermediate/middle: 8.01 exceeds the
`≤ 8` threshold). -/
theorem claim9_amended_boundaries (t : List Char) :
    (flesch_kincaid_grade t = 5 →
      (analyze_readability t).difficulty_level = "beginner" ∧
      (analyze_readability t).grade_band = "elementary") ∧
    (flesch_kincaid_grade t = 801 / 100 →
      (analyze_readability t).difficulty_level = "advanced" ∧
      (analyze_readability t).grade_band = "high") := by
  constructor <;> intro h <;> rw [analyze_difficulty_eq, analyze_band_eq, h] <;>
    norm_num

/-- Witness for C9: `text5` has grade exactly 5 and `text801` has grade
exactly 8.01. -/
theorem claim9_witness :
    ((analyze_readability text5).difficulty_level = "beginner" ∧
      (analyze_readability text5).grade_band = "elementary") ∧
    ((analyze_readability text801).difficulty_level = "advanced" ∧
      (analyze_readability text801).grade_band = "high") :=
  ⟨(claim9_amended_boundaries text5).1 fk_text5,
    (claim9_amended_boundaries text801).2 fk_text801⟩

/-- C10: the reported `flesch_kincaid_grade` field is the unrounded
grade rounded to one decimal place while the classification uses the
unrounded grade, so every text with unrounded grade strictly between 8
and 8.05 reports grade 8.0 yet is classified advanced/high. -/
theorem claim10_rounded_report_vs_classification (t : List Char) :
    (analyze_readability t).flesch_kincaid_grade =
      pyRoundTo 1 (flesch_kincaid_grade t) ∧
    (8 < flesch_kincaid_grade t → flesch_kincaid_grade t < 805 / 100 →
      (analyze_readability t).flesch_kincaid_grade = 8 ∧
      (analyze_readability t).difficulty_level = "advanced" ∧
      (analyze_readability t).grade_band = "high") := by
  refine ⟨analyze_fk_eq t, fun h1 h2 => ⟨?_, ?_, ?_⟩⟩
  · rw [analyze_fk_eq, pyRoundTo]
    have h80 : pyRound (flesch_kincaid_grade t * 10 ^ 1) = 80 := by
      apply pyRound_eq_of_lt_half
      · push_cast
        norm_num
        linarith
      · push_cast
        norm_num
        linarith
    rw [h80]
    norm_num
  · rw [analyze_difficulty_eq,
      if_neg (show ¬flesch_kincaid_grade t ≤ 5 by linarith),
      if_neg (show ¬flesch_kincaid_grade t ≤ 8 by linarith)]
  · rw [analyze_band_eq,
      if_neg (show ¬flesch_kincaid_grade t ≤ 5 by linarith),
      if_neg (show ¬flesch_kincaid_grade t ≤ 8 by linarith),
      if_pos (show flesch_kincaid_grade t ≤ 12 by linarith)]

/-- Witness for C10: `text8032` has grade 5623/700 ≈ 8.033, strictly
between 8 and 8.05; its report shows grade 8.0 with classification
advanced/high. -/
theorem claim10_witness :
    (analyze_readability text8032).flesch_kincaid_grade = 8 ∧
    (analyze_readability text8032).difficulty_level = "advanced" ∧
    (analyze_readability text8032).grade_band = "high" :=
  (claim10_rounded_report_vs_classification text8032).2
    (by rw [fk_text8032]; norm_num) (by rw [fk_text8032]; norm_num)

end Readability
